import Mathlib

/-!
Verification development for `AssumeRoleConnection.py`: an AWS connection
handler that builds a boto3 session from explicit or default credentials,
optionally assumes an IAM role via STS, eagerly validates the S3 client with
one listing call, and enumerates objects of a fixed bucket with pandas-based
timestamp normalization.

The backend (boto3/STS/S3) is modelled as an oracle (`Backend`); every
network call is recorded as an `Event` so that theorems can speak about
which calls happen and with which session's credentials.  Machine-level
details that the claims depend on are modelled faithfully: Python truthiness
of optional string arguments, the `int(datetime.now().timestamp())`
truncation to whole seconds, the `response["Name"]` / empty-`DataFrame`
`KeyError`s, and the catch-all `except` blocks.
-/

namespace SetupAws

/-- Configuration constant `SOURCE_BUCKET = "inversolarmx"` (line 30). -/
def SOURCE_BUCKET : String := "inversolarmx"

/-- Configuration constant `SOURCE_FOLDER = "pricelists"` (line 31). -/
def SOURCE_FOLDER : String := "pricelists"

/-- Python truthiness of an optional string argument (`if x:` / `if a and b:`):
`None` and the empty string are falsy, every non-empty string is truthy. -/
def truthy : Option String → Bool
  | none => false
  | some s => !(s == "")

/-- The temporary credentials returned by `sts.assume_role` (`response["Credentials"]`). -/
structure Credentials where
  AccessKeyId : String
  SecretAccessKey : String
  SessionToken : String
deriving DecidableEq, Repr

/-- The credential material a `boto3.Session` was constructed from:
explicit access keys (lines 73-77), the default discovery chain (line 80),
or assumed-role temporary credentials (lines 89-94). -/
inductive SessionCreds
  | explicit (keyId secret region : String)
  | default (region : String)
  | assumed (keyId secret token region : String)
deriving DecidableEq, Repr

/-- A pandas/boto3 timestamp: an instant (microseconds since the epoch)
together with an optional timezone tag (`none` = naive). `tz_convert`
changes only the tag, never the instant. -/
structure PyDatetime where
  instant : Int
  tz : Option String
deriving DecidableEq, Repr

/-- One entry of `response["Contents"]` as returned by `list_objects_v2`. -/
structure RawObject where
  Key : String
  Size : Nat
  LastModified : PyDatetime
  StorageClass : String
deriving DecidableEq, Repr

/-- A `list_objects_v2` response: the `"Name"` field (absent models a
`KeyError` on `response["Name"]`) and the `"Contents"` list, absent when
the bucket is empty (`"Contents" not in response`). -/
structure ListResponse where
  name : Option String
  contents : Option (List RawObject)
deriving DecidableEq, Repr

/-- A Python exception: a botocore error (ClientError/NoCredentialsError/...)
or a `KeyError` from a missing dict key / missing DataFrame column. -/
inductive PyErr
  | aws (msg : String)
  | keyError (key : String)
deriving DecidableEq, Repr

/-- One observable network call: which session's credentials were used,
and the arguments.  `pfx` is the `Prefix=` argument of `list_objects_v2`
(`none` when the call passes no prefix). -/
inductive Event
  | assumeRoleCall (session : SessionCreds) (roleArn sessionName : String)
  | listObjectsCall (session : SessionCreds) (bucket : String) (pfx : Option String)
deriving DecidableEq, Repr

/-- The session whose credentials a call was made with. -/
def Event.session : Event → SessionCreds
  | .assumeRoleCall s _ _ => s
  | .listObjectsCall s _ _ => s

/-- Is this event a storage listing call? -/
def Event.isListing : Event → Bool
  | .assumeRoleCall .. => false
  | .listObjectsCall .. => true

/-- The remote AWS backend, as an oracle deciding the outcome of each call.
`assumeRole` receives the calling session, the role ARN and the session
name; `listObjectsV2` receives the calling session and the bucket. -/
structure Backend where
  assumeRole : SessionCreds → String → String → Except PyErr Credentials
  listObjectsV2 : SessionCreds → String → Except PyErr ListResponse

/-- `f"S3ExcelProcessor-{int(datetime.now().timestamp())}"` (line 122):
the clock is read with microsecond resolution (`now_us` microseconds since
the epoch), `.timestamp()` is that value in seconds, and `int(...)`
truncates it to whole seconds. -/
def sessionNameAt (now_us : Nat) : String :=
  "S3ExcelProcessor-" ++ Nat.repr (now_us / 1000000)

/-- Lines 72-81: the base session, from explicit keys when both are truthy,
otherwise from the default credential chain. -/
def base_session (aws_access_key_id aws_secret_access_key : Option String)
    (region_name : String) : SessionCreds :=
  if truthy aws_access_key_id && truthy aws_secret_access_key then
    SessionCreds.explicit (aws_access_key_id.getD "") (aws_secret_access_key.getD "")
      region_name
  else
    SessionCreds.default region_name

/-- `_assume_role` (lines 107-129): call STS `assume_role` with the given
session and a timestamp-derived session name; errors re-raise. -/
def assume_role (be : Backend) (assume_role_arn : String) (session : SessionCreds)
    (now_us : Nat) : Except PyErr Credentials × List Event :=
  (be.assumeRole session assume_role_arn (sessionNameAt now_us),
   [Event.assumeRoleCall session assume_role_arn (sessionNameAt now_us)])

/-- `_test_connection` (lines 131-143): one `list_objects_v2` call against
`SOURCE_BUCKET`; the success log line reads `response["Name"]`, so a missing
`"Name"` raises a `KeyError`; every failure re-raises. -/
def test_connection (be : Backend) (s3_client : SessionCreds) :
    Except PyErr Unit × List Event :=
  ((match be.listObjectsV2 s3_client SOURCE_BUCKET with
    | Except.ok response =>
      match response.name with
      | some _ => Except.ok ()
      | none => Except.error (PyErr.keyError "Name")
    | Except.error e => Except.error e),
   [Event.listObjectsCall s3_client SOURCE_BUCKET none])

/-- `_initialize_aws_clients` (lines 62-105): build the base session, assume
the role when an ARN is truthy (replacing the session by one built from the
temporary credentials), build the S3 client from the final session, and
eagerly validate it; any failure re-raises.  Returns the session the S3
client is bound to, plus the trace of backend calls. -/
def initialize_aws_clients (be : Backend)
    (assume_role_arn aws_access_key_id aws_secret_access_key : Option String)
    (region_name : String) (now_us : Nat) :
    Except PyErr SessionCreds × List Event :=
  let session := base_session aws_access_key_id aws_secret_access_key region_name
  if truthy assume_role_arn then
    match assume_role be (assume_role_arn.getD "") session now_us with
    | (Except.ok credentials, tr) =>
      let session2 := SessionCreds.assumed credentials.AccessKeyId
        credentials.SecretAccessKey credentials.SessionToken region_name
      (match test_connection be session2 with
       | (Except.ok _, tr2) => (Except.ok session2, tr ++ tr2)
       | (Except.error e, tr2) => (Except.error e, tr ++ tr2))
    | (Except.error e, tr) => (Except.error e, tr)
  else
    match test_connection be session with
    | (Except.ok _, tr2) => (Except.ok session, tr2)
    | (Except.error e, tr2) => (Except.error e, tr2)

/-- `pd.to_datetime(x, utc=True)` on a boto3 timestamp: the instant is kept
and the value becomes UTC-aware (aware values are converted to UTC, naive
values are interpreted as UTC). -/
def to_datetime_utc (t : PyDatetime) : PyDatetime :=
  { instant := t.instant, tz := some "UTC" }

/-- `.dt.tz_convert(zone)` on an aware timestamp: retag to `zone`, keeping
the instant (the same point in time, displayed in another zone). -/
def tz_convert (zone : String) (t : PyDatetime) : PyDatetime :=
  { instant := t.instant, tz := some zone }

/-- One row of the result `DataFrame` after the column transformations of
lines 164-170. -/
structure NormRow where
  Key : String
  Size : Nat
  LastModified : PyDatetime
  StorageClass : String
deriving DecidableEq, Repr

/-- Lines 163-170: `Key` cast to `str` (already a string here) and
`LastModified` normalized via `to_datetime(..., utc=True)` followed by
`tz_convert("America/Mexico_City")`. -/
def normalize_row (r : RawObject) : NormRow :=
  { Key := r.Key
    Size := r.Size
    LastModified := tz_convert "America/Mexico_City" (to_datetime_utc r.LastModified)
    StorageClass := r.StorageClass }

/-- The value returned by `get_files_from_s3_folder`: either the Python
literal `[]` (empty list) or a pandas `DataFrame` of normalized rows — two
different runtime types behind the one `List[str]` annotation. -/
inductive ListingReturn
  | emptyList
  | dataFrame (rows : List NormRow)
deriving DecidableEq, Repr

/-- The `try` body of `get_files_from_s3_folder` (lines 149-174): compute the
(unused) prefix string, issue one unprefixed `list_objects_v2` call, return
`[]` when `"Contents"` is absent, otherwise build the DataFrame.  With
`Contents` present but empty, `pd.DataFrame([])` has no columns and
`files_df["Key"]` raises a `KeyError`. -/
def get_files_body (be : Backend) (s3_client : SessionCreds) :
    Except PyErr ListingReturn × List Event :=
  let _pfx := if SOURCE_FOLDER ≠ "" then SOURCE_FOLDER ++ "/" else ""
  ((match be.listObjectsV2 s3_client SOURCE_BUCKET with
    | Except.ok response =>
      match response.contents with
      | none => Except.ok ListingReturn.emptyList
      | some [] => Except.error (PyErr.keyError "Key")
      | some rows => Except.ok (ListingReturn.dataFrame (rows.map normalize_row))
    | Except.error e => Except.error e),
   [Event.listObjectsCall s3_client SOURCE_BUCKET none])

/-- `get_files_from_s3_folder` (lines 145-178): the `try` body with a
catch-all `except` that converts every exception into the empty list. -/
def get_files_from_s3_folder (be : Backend) (s3_client : SessionCreds) :
    ListingReturn × List Event :=
  match get_files_body be s3_client with
  | (Except.ok v, tr) => (v, tr)
  | (Except.error _, tr) => (ListingReturn.emptyList, tr)

/-! ### Concrete backends, used as witnesses -/

/-- Temporary credentials handed out by the demo backend. -/
def demoCreds : Credentials :=
  { AccessKeyId := "ASIADEMOKEY", SecretAccessKey := "demoSecret"
    SessionToken := "demoToken" }

/-- One object in the demo bucket, with a UTC-aware timestamp. -/
def demoObject : RawObject :=
  { Key := "pricelists/file1.xlsx", Size := 1024
    LastModified := { instant := 1714563600000000, tz := some "UTC" }
    StorageClass := "STANDARD" }

/-- A backend where every call succeeds and the bucket holds one object. -/
def demoBackend : Backend :=
  { assumeRole := fun _ _ _ => Except.ok demoCreds
    listObjectsV2 := fun _ _ =>
      Except.ok { name := some "inversolarmx", contents := some [demoObject] } }

/-- A backend whose delegation service rejects every assume-role call. -/
def denyRoleBackend : Backend :=
  { assumeRole := fun _ _ _ => Except.error (PyErr.aws "AccessDenied (403)")
    listObjectsV2 := fun _ _ =>
      Except.ok { name := some "inversolarmx", contents := some [demoObject] } }

/-- A backend whose listing operation always fails. -/
def failListBackend : Backend :=
  { assumeRole := fun _ _ _ => Except.ok demoCreds
    listObjectsV2 := fun _ _ => Except.error (PyErr.aws "NoCredentialsError") }

/-- A backend whose bucket is empty: responses carry no `"Contents"` key. -/
def emptyBucketBackend : Backend :=
  { assumeRole := fun _ _ _ => Except.ok demoCreds
    listObjectsV2 := fun _ _ =>
      Except.ok { name := some "inversolarmx", contents := none } }

/-! ### Characterization lemmas -/

/-- `test_connection` unfolded on the outcome of the backend call. -/
theorem test_connection_eq (be : Backend) (sc : SessionCreds) :
    test_connection be sc =
      ((match be.listObjectsV2 sc SOURCE_BUCKET with
        | Except.ok response =>
          match response.name with
          | some _ => Except.ok ()
          | none => Except.error (PyErr.keyError "Name")
        | Except.error e => Except.error e),
       [Event.listObjectsCall sc SOURCE_BUCKET none]) := rfl

/-- With a truthy role ARN and a rejected assume-role call,
`initialize_aws_clients` propagates the error after the single
assume-role call. -/
theorem init_role_reject_eq (be : Backend) (a : String) (k s : Option String)
    (r : String) (now_us : Nat) (ha : a ≠ "") (e : PyErr)
    (hrej : be.assumeRole (base_session k s r) a (sessionNameAt now_us) =
      Except.error e) :
    initialize_aws_clients be (some a) k s r now_us =
      (Except.error e,
       [Event.assumeRoleCall (base_session k s r) a (sessionNameAt now_us)]) := by
  have htr : truthy (some a) = true := by
    simp [truthy]
    exact ha
  simp [initialize_aws_clients, assume_role, htr, hrej]

/-- With a truthy role ARN, a granted assume-role call and a failing
validation listing, `initialize_aws_clients` propagates the listing error. -/
theorem init_role_listfail_eq (be : Backend) (a : String) (k s : Option String)
    (r : String) (now_us : Nat) (ha : a ≠ "") (c : Credentials) (e : PyErr)
    (hok : be.assumeRole (base_session k s r) a (sessionNameAt now_us) = Except.ok c)
    (hL : be.listObjectsV2
        (SessionCreds.assumed c.AccessKeyId c.SecretAccessKey c.SessionToken r)
        SOURCE_BUCKET = Except.error e) :
    initialize_aws_clients be (some a) k s r now_us =
      (Except.error e,
       [Event.assumeRoleCall (base_session k s r) a (sessionNameAt now_us),
        Event.listObjectsCall
          (SessionCreds.assumed c.AccessKeyId c.SecretAccessKey c.SessionToken r)
          SOURCE_BUCKET none]) := by
  have htr : truthy (some a) = true := by
    simp [truthy]
    exact ha
  simp [initialize_aws_clients, assume_role, test_connection, htr, hok, hL]

/-- With a truthy role ARN, a granted assume-role call and a validation
response lacking `"Name"`, `initialize_aws_clients` raises the `KeyError`. -/
theorem init_role_noname_eq (be : Backend) (a : String) (k s : Option String)
    (r : String) (now_us : Nat) (ha : a ≠ "") (c : Credentials)
    (response : ListResponse)
    (hok : be.assumeRole (base_session k s r) a (sessionNameAt now_us) = Except.ok c)
    (hL : be.listObjectsV2
        (SessionCreds.assumed c.AccessKeyId c.SecretAccessKey c.SessionToken r)
        SOURCE_BUCKET = Except.ok response)
    (hn : response.name = none) :
    initialize_aws_clients be (some a) k s r now_us =
      (Except.error (PyErr.keyError "Name"),
       [Event.assumeRoleCall (base_session k s r) a (sessionNameAt now_us),
        Event.listObjectsCall
          (SessionCreds.assumed c.AccessKeyId c.SecretAccessKey c.SessionToken r)
          SOURCE_BUCKET none]) := by
  have htr : truthy (some a) = true := by
    simp [truthy]
    exact ha
  simp [initialize_aws_clients, assume_role, test_connection, htr, hok, hL, hn]

/-- With a truthy role ARN, a granted assume-role call and a successful
validation listing, `initialize_aws_clients` returns the assumed-role
session. -/
theorem init_role_ok_eq (be : Backend) (a : String) (k s : Option String)
    (r : String) (now_us : Nat) (ha : a ≠ "") (c : Credentials)
    (response : ListResponse) (nm : String)
    (hok : be.assumeRole (base_session k s r) a (sessionNameAt now_us) = Except.ok c)
    (hL : be.listObjectsV2
        (SessionCreds.assumed c.AccessKeyId c.SecretAccessKey c.SessionToken r)
        SOURCE_BUCKET = Except.ok response)
    (hn : response.name = some nm) :
    initialize_aws_clients be (some a) k s r now_us =
      (Except.ok (SessionCreds.assumed c.AccessKeyId c.SecretAccessKey c.SessionToken r),
       [Event.assumeRoleCall (base_session k s r) a (sessionNameAt now_us),
        Event.listObjectsCall
          (SessionCreds.assumed c.AccessKeyId c.SecretAccessKey c.SessionToken r)
          SOURCE_BUCKET none]) := by
  have htr : truthy (some a) = true := by
    simp [truthy]
    exact ha
  simp [initialize_aws_clients, assume_role, test_connection, htr, hok, hL, hn]

/-- With a falsy role ARN and a failing validation listing,
`initialize_aws_clients` propagates the listing error. -/
theorem init_norole_listfail_eq (be : Backend) (arn k s : Option String)
    (r : String) (now_us : Nat) (ha : truthy arn = false) (e : PyErr)
    (hL : be.listObjectsV2 (base_session k s r) SOURCE_BUCKET = Except.error e) :
    initialize_aws_clients be arn k s r now_us =
      (Except.error e,
       [Event.listObjectsCall (base_session k s r) SOURCE_BUCKET none]) := by
  simp [initialize_aws_clients, test_connection, ha, hL]

/-- With a falsy role ARN and a validation response lacking `"Name"`,
`initialize_aws_clients` raises the `KeyError`. -/
theorem init_norole_noname_eq (be : Backend) (arn k s : Option String)
    (r : String) (now_us : Nat) (ha : truthy arn = false) (response : ListResponse)
    (hL : be.listObjectsV2 (base_session k s r) SOURCE_BUCKET = Except.ok response)
    (hn : response.name = none) :
    initialize_aws_clients be arn k s r now_us =
      (Except.error (PyErr.keyError "Name"),
       [Event.listObjectsCall (base_session k s r) SOURCE_BUCKET none]) := by
  simp [initialize_aws_clients, test_connection, ha, hL, hn]

/-- With a falsy role ARN and a successful validation listing,
`initialize_aws_clients` returns the base session. -/
theorem init_norole_ok_eq (be : Backend) (arn k s : Option String)
    (r : String) (now_us : Nat) (ha : truthy arn = false) (response : ListResponse)
    (nm : String)
    (hL : be.listObjectsV2 (base_session k s r) SOURCE_BUCKET = Except.ok response)
    (hn : response.name = some nm) :
    initialize_aws_clients be arn k s r now_us =
      (Except.ok (base_session k s r),
       [Event.listObjectsCall (base_session k s r) SOURCE_BUCKET none]) := by
  simp [initialize_aws_clients, test_connection, ha, hL, hn]

/-- `get_files_from_s3_folder` unfolded on the outcome of the listing call:
the trace is always exactly one unprefixed listing call, and the result is
a `DataFrame` exactly when `"Contents"` is present and non-empty. -/
theorem get_files_eq (be : Backend) (s3_client : SessionCreds) :
    get_files_from_s3_folder be s3_client =
      ((match be.listObjectsV2 s3_client SOURCE_BUCKET with
        | Except.ok response =>
          match response.contents with
          | none => ListingReturn.emptyList
          | some [] => ListingReturn.emptyList
          | some rows => ListingReturn.dataFrame (rows.map normalize_row)
        | Except.error _ => ListingReturn.emptyList),
       [Event.listObjectsCall s3_client SOURCE_BUCKET none]) := by
  cases hL : be.listObjectsV2 s3_client SOURCE_BUCKET with
  | error e =>
    simp [get_files_from_s3_folder, get_files_body, hL]
  | ok response =>
    cases hc : response.contents with
    | none => simp [get_files_from_s3_folder, get_files_body, hL, hc]
    | some rows =>
      cases rows with
      | nil => simp [get_files_from_s3_folder, get_files_body, hL, hc]
      | cons hd tl => simp [get_files_from_s3_folder, get_files_body, hL, hc]

/-! ### Injectivity of the decimal representation (for the session name) -/

/-- Numeric value of a list of decimal digit characters. -/
def valOfDigits : List Char → Nat
  | [] => 0
  | c :: cs => (c.toNat - 48) * 10 ^ cs.length + valOfDigits cs

/-- Decimal digit characters decode back to their digit. -/
theorem digitChar_toNat (d : Nat) (hd : d < 10) : (Nat.digitChar d).toNat = 48 + d := by
  interval_cases d <;> rfl

/-- `Nat.toDigitsCore` prepends the decimal digits of `n`, provided the fuel
suffices. -/
theorem toDigitsCore_val : ∀ (fuel n : Nat) (ds : List Char), n < fuel →
    valOfDigits (Nat.toDigitsCore 10 fuel n ds) = n * 10 ^ ds.length + valOfDigits ds := by
  intro fuel
  induction fuel with
  | zero => intro n ds h; exact absurd h (Nat.not_lt_zero n)
  | succ f ih =>
    intro n ds h
    by_cases h10 : n / 10 = 0
    · have hlt : n < 10 := by omega
      have hmod : n % 10 = n := Nat.mod_eq_of_lt hlt
      simp only [Nat.toDigitsCore, h10, if_true]
      simp [valOfDigits, hmod, digitChar_toNat n hlt, Nat.add_sub_cancel_left]
    · have hn : 0 < n := by
        rcases Nat.eq_zero_or_pos n with h0 | h0
        · exact absurd (by simp [h0]) h10
        · exact h0
      have hfuel : n / 10 < f := by
        have h1 : n / 10 < n := Nat.div_lt_self hn (by norm_num)
        omega
      simp only [Nat.toDigitsCore, h10, if_false]
      rw [ih (n / 10) (Nat.digitChar (n % 10) :: ds) hfuel]
      have hmodlt : n % 10 < 10 := Nat.mod_lt n (by norm_num)
      simp only [valOfDigits, List.length_cons,
        digitChar_toNat (n % 10) hmodlt, Nat.add_sub_cancel_left]
      have hsplit : n = 10 * (n / 10) + n % 10 := (Nat.div_add_mod n 10).symm
      calc n / 10 * 10 ^ (ds.length + 1) + (n % 10 * 10 ^ ds.length + valOfDigits ds)
          = (10 * (n / 10) + n % 10) * 10 ^ ds.length + valOfDigits ds := by ring
        _ = n * 10 ^ ds.length + valOfDigits ds := by rw [← hsplit]

/-- The decimal digits of `n` decode to `n`. -/
theorem valOfDigits_toDigits (n : Nat) : valOfDigits (Nat.toDigits 10 n) = n := by
  have h := toDigitsCore_val (n + 1) n [] (Nat.lt_succ_self n)
  simpa [Nat.toDigits, valOfDigits] using h

/-- `Nat.repr` is injective. -/
theorem nat_repr_injective : Function.Injective Nat.repr := by
  intro a b h
  have hdata : Nat.toDigits 10 a = Nat.toDigits 10 b := by
    have h2 := congrArg String.data h
    simpa [Nat.repr, List.asString] using h2
  have h3 := congrArg valOfDigits hdata
  simpa [valOfDigits_toDigits] using h3

/-- Appending to a fixed string on the left is injective. -/
theorem string_append_left_cancel {p x y : String} (h : p ++ x = p ++ y) : x = y := by
  cases p with
  | mk pd =>
    cases x with
    | mk xd =>
      cases y with
      | mk yd =>
        have hdata : pd ++ xd = pd ++ yd := congrArg String.data h
        have : xd = yd := List.append_cancel_left hdata
        simp [this]

/-! ### Claims -/

/-- C1: when a role ARN is supplied (a non-empty string, per Python
truthiness), the broker calls the delegation service's assume-role
operation with the base session; every storage listing call in the
construction is made with a session built from the returned temporary
credentials; and the session the S3 client is bound to on success is that
new session — never the base session or the original explicit keys. -/
theorem claim_C1_delegated_session (be : Backend) (a : String) (k s : Option String)
    (r : String) (now_us : Nat) (ha : a ≠ "") :
    Event.assumeRoleCall (base_session k s r) a (sessionNameAt now_us)
        ∈ (initialize_aws_clients be (some a) k s r now_us).snd
    ∧ (∀ sess bucket p,
        Event.listObjectsCall sess bucket p
            ∈ (initialize_aws_clients be (some a) k s r now_us).snd →
        ∃ c : Credentials,
          be.assumeRole (base_session k s r) a (sessionNameAt now_us) = Except.ok c ∧
          sess = SessionCreds.assumed c.AccessKeyId c.SecretAccessKey c.SessionToken r)
    ∧ (∀ sess,
        (initialize_aws_clients be (some a) k s r now_us).fst = Except.ok sess →
        ∃ c : Credentials,
          be.assumeRole (base_session k s r) a (sessionNameAt now_us) = Except.ok c ∧
          sess = SessionCreds.assumed c.AccessKeyId c.SecretAccessKey c.SessionToken r) := by
  rcases hAR : be.assumeRole (base_session k s r) a (sessionNameAt now_us) with e | c
  · rw [init_role_reject_eq be a k s r now_us ha e hAR]
    refine ⟨by simp, ?_, ?_⟩
    · intro sess bucket p hmem
      simp at hmem
    · intro sess hfst
      simp at hfst
  · rcases hL : be.listObjectsV2
        (SessionCreds.assumed c.AccessKeyId c.SecretAccessKey c.SessionToken r)
        SOURCE_BUCKET with e | response
    · rw [init_role_listfail_eq be a k s r now_us ha c e hAR hL]
      refine ⟨by simp, ?_, ?_⟩
      · intro sess bucket p hmem
        simp at hmem
        exact ⟨c, rfl, hmem.1⟩
      · intro sess hfst
        simp at hfst
    · rcases hn : response.name with _ | nm
      · rw [init_role_noname_eq be a k s r now_us ha c response hAR hL hn]
        refine ⟨by simp, ?_, ?_⟩
        · intro sess bucket p hmem
          simp at hmem
          exact ⟨c, rfl, hmem.1⟩
        · intro sess hfst
          simp at hfst
      · rw [init_role_ok_eq be a k s r now_us ha c response nm hAR hL hn]
        refine ⟨by simp, ?_, ?_⟩
        · intro sess bucket p hmem
          simp at hmem
          exact ⟨c, rfl, hmem.1⟩
        · intro sess hfst
          simp at hfst
          exact ⟨c, rfl, hfst.symm⟩

/-- C1 witness: a concrete successful role-assuming construction. -/
theorem claim_C1_witness :
    Event.assumeRoleCall
        (base_session (some "AKIAEXPLICIT") (some "explicitSecret") "us-east-1")
        "arn:aws:iam::123:role/X" (sessionNameAt 1714000000123456)
      ∈ (initialize_aws_clients demoBackend (some "arn:aws:iam::123:role/X")
          (some "AKIAEXPLICIT") (some "explicitSecret") "us-east-1"
          1714000000123456).snd
    ∧ (∀ sess bucket p,
        Event.listObjectsCall sess bucket p
            ∈ (initialize_aws_clients demoBackend (some "arn:aws:iam::123:role/X")
                (some "AKIAEXPLICIT") (some "explicitSecret") "us-east-1"
                1714000000123456).snd →
        ∃ c : Credentials,
          demoBackend.assumeRole
              (base_session (some "AKIAEXPLICIT") (some "explicitSecret") "us-east-1")
              "arn:aws:iam::123:role/X" (sessionNameAt 1714000000123456) =
            Except.ok c ∧
          sess = SessionCreds.assumed c.AccessKeyId c.SecretAccessKey c.SessionToken
              "us-east-1")
    ∧ (∀ sess,
        (initialize_aws_clients demoBackend (some "arn:aws:iam::123:role/X")
            (some "AKIAEXPLICIT") (some "explicitSecret") "us-east-1"
            1714000000123456).fst = Except.ok sess →
        ∃ c : Credentials,
          demoBackend.assumeRole
              (base_session (some "AKIAEXPLICIT") (some "explicitSecret") "us-east-1")
              "arn:aws:iam::123:role/X" (sessionNameAt 1714000000123456) =
            Except.ok c ∧
          sess = SessionCreds.assumed c.AccessKeyId c.SecretAccessKey c.SessionToken
              "us-east-1") :=
  claim_C1_delegated_session demoBackend "arn:aws:iam::123:role/X"
    (some "AKIAEXPLICIT") (some "explicitSecret") "us-east-1" 1714000000123456
    (by decide)

/-- C2: the session used for the first backend call of every construction
(the base session) is built from the explicit keys exactly when both are
supplied (non-empty, per Python truthiness), and from the default
credential discovery chain otherwise. -/
theorem claim_C2_explicit_beats_ambient (be : Backend) (arn k s : Option String)
    (r : String) (now_us : Nat) :
    (initialize_aws_clients be arn k s r now_us).snd.head?.map Event.session =
      some (if truthy k && truthy s then
              SessionCreds.explicit (k.getD "") (s.getD "") r
            else
              SessionCreds.default r) := by
  by_cases harn : truthy arn = true
  · cases arn with
    | none => simp [truthy] at harn
    | some a =>
      have ha : a ≠ "" := by
        simpa [truthy] using harn
      rcases hAR : be.assumeRole (base_session k s r) a (sessionNameAt now_us) with e | c
      · rw [init_role_reject_eq be a k s r now_us ha e hAR]
        simp [Event.session, base_session]
      · rcases hL : be.listObjectsV2
            (SessionCreds.assumed c.AccessKeyId c.SecretAccessKey c.SessionToken r)
            SOURCE_BUCKET with e | response
        · rw [init_role_listfail_eq be a k s r now_us ha c e hAR hL]
          simp [Event.session, base_session]
        · rcases hn : response.name with _ | nm
          · rw [init_role_noname_eq be a k s r now_us ha c response hAR hL hn]
            simp [Event.session, base_session]
          · rw [init_role_ok_eq be a k s r now_us ha c response nm hAR hL hn]
            simp [Event.session, base_session]
  · have harn2 : truthy arn = false := by
      simpa using harn
    rcases hL : be.listObjectsV2 (base_session k s r) SOURCE_BUCKET with e | response
    · rw [init_norole_listfail_eq be arn k s r now_us harn2 e hL]
      simp [Event.session, base_session]
    · rcases hn : response.name with _ | nm
      · rw [init_norole_noname_eq be arn k s r now_us harn2 response hL hn]
        simp [Event.session, base_session]
      · rw [init_norole_ok_eq be arn k s r now_us harn2 response nm hL hn]
        simp [Event.session, base_session]

/-- C3: a construction returns a session only after the eager validation
listing against `SOURCE_BUCKET` succeeded with that very session: the trace
of a successful construction contains exactly one listing call, made with
the returned session against the source bucket, and the backend answered it
positively (with a `"Name"` field, which the success log line reads). -/
theorem claim_C3_connectivity_checked (be : Backend) (arn k s : Option String)
    (r : String) (now_us : Nat) (sess : SessionCreds)
    (h : (initialize_aws_clients be arn k s r now_us).fst = Except.ok sess) :
    (initialize_aws_clients be arn k s r now_us).snd.filter Event.isListing =
        [Event.listObjectsCall sess SOURCE_BUCKET none]
    ∧ ∃ response, be.listObjectsV2 sess SOURCE_BUCKET = Except.ok response ∧
        response.name ≠ none := by
  by_cases harn : truthy arn = true
  · cases arn with
    | none => simp [truthy] at harn
    | some a =>
      have ha : a ≠ "" := by
        simpa [truthy] using harn
      rcases hAR : be.assumeRole (base_session k s r) a (sessionNameAt now_us) with e | c
      · rw [init_role_reject_eq be a k s r now_us ha e hAR] at h
        simp at h
      · rcases hL : be.listObjectsV2
            (SessionCreds.assumed c.AccessKeyId c.SecretAccessKey c.SessionToken r)
            SOURCE_BUCKET with e | response
        · rw [init_role_listfail_eq be a k s r now_us ha c e hAR hL] at h
          simp at h
        · rcases hn : response.name with _ | nm
          · rw [init_role_noname_eq be a k s r now_us ha c response hAR hL hn] at h
            simp at h
          · rw [init_role_ok_eq be a k s r now_us ha c response nm hAR hL hn] at h ⊢
            simp at h
            subst h
            exact ⟨by simp [Event.isListing], response, hL, by simp [hn]⟩
  · have harn2 : truthy arn = false := by
      simpa using harn
    rcases hL : be.listObjectsV2 (base_session k s r) SOURCE_BUCKET with e | response
    · rw [init_norole_listfail_eq be arn k s r now_us harn2 e hL] at h
      simp at h
    · rcases hn : response.name with _ | nm
      · rw [init_norole_noname_eq be arn k s r now_us harn2 response hL hn] at h
        simp at h
      · rw [init_norole_ok_eq be arn k s r now_us harn2 response nm hL hn] at h ⊢
        simp at h
        subst h
        exact ⟨by simp [Event.isListing], response, hL, by simp [hn]⟩

/-- C3 witness: a concrete construction (default credentials, no role)
whose validation listing succeeded. -/
theorem claim_C3_witness :
    (initialize_aws_clients demoBackend none none none "us-east-1"
        1714000000123456).snd.filter Event.isListing =
        [Event.listObjectsCall (SessionCreds.default "us-east-1") SOURCE_BUCKET none]
    ∧ ∃ response,
        demoBackend.listObjectsV2 (SessionCreds.default "us-east-1") SOURCE_BUCKET =
          Except.ok response ∧ response.name ≠ none :=
  claim_C3_connectivity_checked demoBackend none none none "us-east-1"
    1714000000123456 (SessionCreds.default "us-east-1") rfl

/-- C5: when the delegation service rejects the assume-role call, the
construction fails with that very error, and its trace is the single
assume-role call — in particular no listing call (neither validation nor
enumeration) is attempted after the rejection. -/
theorem claim_C5_rejection_propagates (be : Backend) (a : String) (k s : Option String)
    (r : String) (now_us : Nat) (e : PyErr) (ha : a ≠ "")
    (hrej : be.assumeRole (base_session k s r) a (sessionNameAt now_us) =
      Except.error e) :
    (initialize_aws_clients be (some a) k s r now_us).fst = Except.error e
    ∧ (initialize_aws_clients be (some a) k s r now_us).snd =
        [Event.assumeRoleCall (base_session k s r) a (sessionNameAt now_us)]
    ∧ ∀ ev ∈ (initialize_aws_clients be (some a) k s r now_us).snd,
        Event.isListing ev = false := by
  rw [init_role_reject_eq be a k s r now_us ha e hrej]
  refine ⟨rfl, rfl, ?_⟩
  intro ev hev
  simp at hev
  subst hev
  rfl

/-- C5 witness: a concrete rejected delegation (simulated 403). -/
theorem claim_C5_witness :
    (initialize_aws_clients denyRoleBackend (some "arn:aws:iam::123:role/X")
        (some "AKIAEXPLICIT") (some "explicitSecret") "us-east-1"
        1714000000123456).fst = Except.error (PyErr.aws "AccessDenied (403)")
    ∧ (initialize_aws_clients denyRoleBackend (some "arn:aws:iam::123:role/X")
        (some "AKIAEXPLICIT") (some "explicitSecret") "us-east-1"
        1714000000123456).snd =
        [Event.assumeRoleCall
          (base_session (some "AKIAEXPLICIT") (some "explicitSecret") "us-east-1")
          "arn:aws:iam::123:role/X" (sessionNameAt 1714000000123456)]
    ∧ ∀ ev ∈ (initialize_aws_clients denyRoleBackend (some "arn:aws:iam::123:role/X")
        (some "AKIAEXPLICIT") (some "explicitSecret") "us-east-1"
        1714000000123456).snd, Event.isListing ev = false :=
  claim_C5_rejection_propagates denyRoleBackend "arn:aws:iam::123:role/X"
    (some "AKIAEXPLICIT") (some "explicitSecret") "us-east-1" 1714000000123456
    (PyErr.aws "AccessDenied (403)") (by decide) rfl

/-- A failing listing call makes `get_files_from_s3_folder` return the
empty list (the error is swallowed by the catch-all `except`). -/
theorem get_files_err_eq (be : Backend) (s3_client : SessionCreds) (e : PyErr)
    (hL : be.listObjectsV2 s3_client SOURCE_BUCKET = Except.error e) :
    get_files_from_s3_folder be s3_client =
      (ListingReturn.emptyList,
       [Event.listObjectsCall s3_client SOURCE_BUCKET none]) := by
  simp [get_files_from_s3_folder, get_files_body, hL]

/-- A response without a `"Contents"` key makes `get_files_from_s3_folder`
return the empty list. -/
theorem get_files_nocontents_eq (be : Backend) (s3_client : SessionCreds)
    (response : ListResponse)
    (hL : be.listObjectsV2 s3_client SOURCE_BUCKET = Except.ok response)
    (hc : response.contents = none) :
    get_files_from_s3_folder be s3_client =
      (ListingReturn.emptyList,
       [Event.listObjectsCall s3_client SOURCE_BUCKET none]) := by
  simp [get_files_from_s3_folder, get_files_body, hL, hc]

/-- A response with an empty `"Contents"` list makes
`get_files_from_s3_folder` return the empty list (the columnless
`pd.DataFrame([])` raises a `KeyError`, swallowed by the `except`). -/
theorem get_files_emptycontents_eq (be : Backend) (s3_client : SessionCreds)
    (response : ListResponse)
    (hL : be.listObjectsV2 s3_client SOURCE_BUCKET = Except.ok response)
    (hc : response.contents = some []) :
    get_files_from_s3_folder be s3_client =
      (ListingReturn.emptyList,
       [Event.listObjectsCall s3_client SOURCE_BUCKET none]) := by
  simp [get_files_from_s3_folder, get_files_body, hL, hc]

/-- A response with a non-empty `"Contents"` list makes
`get_files_from_s3_folder` return the `DataFrame` of normalized rows. -/
theorem get_files_df_eq (be : Backend) (s3_client : SessionCreds)
    (response : ListResponse) (src : List RawObject)
    (hL : be.listObjectsV2 s3_client SOURCE_BUCKET = Except.ok response)
    (hc : response.contents = some src) (hne : src ≠ []) :
    get_files_from_s3_folder be s3_client =
      (ListingReturn.dataFrame (src.map normalize_row),
       [Event.listObjectsCall s3_client SOURCE_BUCKET none]) := by
  rcases src with _ | ⟨hd, tl⟩
  · exact absurd rfl hne
  · simp [get_files_from_s3_folder, get_files_body, hL, hc]

/-- C4: every error raised inside the `try` body of the listing operation —
whether by the backend call or during DataFrame normalization — is caught
and converted into the empty list instead of being propagated. -/
theorem claim_C4_degrade_to_empty (be : Backend) (s3_client : SessionCreds) (e : PyErr)
    (h : (get_files_body be s3_client).fst = Except.error e) :
    (get_files_from_s3_folder be s3_client).fst = ListingReturn.emptyList := by
  rcases hb : get_files_body be s3_client with ⟨res, tr⟩
  rw [hb] at h
  simp at h
  unfold get_files_from_s3_folder
  rw [hb, h]

/-- C4 witness: a backend whose listing call throws; the operation returns
the empty list. -/
theorem claim_C4_witness :
    (get_files_body failListBackend (SessionCreds.default "us-east-1")).fst =
        Except.error (PyErr.aws "NoCredentialsError")
    ∧ (get_files_from_s3_folder failListBackend
        (SessionCreds.default "us-east-1")).fst = ListingReturn.emptyList :=
  ⟨rfl, claim_C4_degrade_to_empty failListBackend (SessionCreds.default "us-east-1")
    (PyErr.aws "NoCredentialsError") rfl⟩

/-- C6: every invocation of the listing operation issues exactly one
listing call, and that call carries no prefix argument (it enumerates the
whole container), even though a non-empty source folder is configured. -/
theorem claim_C6_unprefixed_single_call (be : Backend) (s3_client : SessionCreds) :
    (get_files_from_s3_folder be s3_client).snd =
      [Event.listObjectsCall s3_client SOURCE_BUCKET none]
    ∧ SOURCE_FOLDER ≠ "" := by
  constructor
  · rw [get_files_eq be s3_client]
  · decide

/-- C7: for every returned entry with a UTC-aware last-modified timestamp,
the normalized timestamp in the resulting `DataFrame` is that value
converted to `America/Mexico_City`: the same instant, retagged, and
timezone-aware. -/
theorem claim_C7_timestamp_normalization (be : Backend) (s3_client : SessionCreds)
    (response : ListResponse) (src : List RawObject)
    (hL : be.listObjectsV2 s3_client SOURCE_BUCKET = Except.ok response)
    (hc : response.contents = some src) (hne : src ≠ []) :
    (get_files_from_s3_folder be s3_client).fst =
        ListingReturn.dataFrame (src.map normalize_row)
    ∧ ∀ rec ∈ src, rec.LastModified.tz = some "UTC" →
        (normalize_row rec).LastModified =
            tz_convert "America/Mexico_City" rec.LastModified
        ∧ (normalize_row rec).LastModified.instant = rec.LastModified.instant
        ∧ (normalize_row rec).LastModified.tz ≠ none := by
  constructor
  · rw [get_files_df_eq be s3_client response src hL hc hne]
  · intro rec hrec hutc
    exact ⟨rfl, rfl, by simp [normalize_row, tz_convert, to_datetime_utc]⟩

/-- C7 witness: the demo bucket's single object, with a UTC timestamp. -/
theorem claim_C7_witness :
    (get_files_from_s3_folder demoBackend (SessionCreds.default "us-east-1")).fst =
        ListingReturn.dataFrame ([demoObject].map normalize_row)
    ∧ ∀ rec ∈ [demoObject], rec.LastModified.tz = some "UTC" →
        (normalize_row rec).LastModified =
            tz_convert "America/Mexico_City" rec.LastModified
        ∧ (normalize_row rec).LastModified.instant = rec.LastModified.instant
        ∧ (normalize_row rec).LastModified.tz ≠ none :=
  claim_C7_timestamp_normalization demoBackend (SessionCreds.default "us-east-1")
    { name := some "inversolarmx", contents := some [demoObject] } [demoObject]
    rfl rfl (by decide)

/-- C9: a listing response with no entries — no `"Contents"` key, or an
empty one — yields the empty list, not an error. -/
theorem claim_C9_empty_container_ok (be : Backend) (s3_client : SessionCreds)
    (response : ListResponse)
    (hL : be.listObjectsV2 s3_client SOURCE_BUCKET = Except.ok response)
    (hempty : response.contents = none ∨ response.contents = some []) :
    (get_files_from_s3_folder be s3_client).fst = ListingReturn.emptyList := by
  rcases hempty with hc | hc
  · rw [get_files_nocontents_eq be s3_client response hL hc]
  · rw [get_files_emptycontents_eq be s3_client response hL hc]

/-- C9 witness: an empty bucket yields the empty list. -/
theorem claim_C9_witness :
    (get_files_from_s3_folder emptyBucketBackend
      (SessionCreds.default "us-east-1")).fst = ListingReturn.emptyList :=
  claim_C9_empty_container_ok emptyBucketBackend (SessionCreds.default "us-east-1")
    { name := some "inversolarmx", contents := none } rfl (Or.inl rfl)

/-- C10: the listing operation's result is of two distinct shapes — a
`DataFrame` of the entries for every non-empty response, and the Python
empty list for every empty response and every swallowed backend error —
despite the declared `List[str]` return annotation. -/
theorem claim_C10_result_shape (be : Backend) (s3_client : SessionCreds) :
    (∀ response src, be.listObjectsV2 s3_client SOURCE_BUCKET = Except.ok response →
        response.contents = some src → src ≠ [] →
        (get_files_from_s3_folder be s3_client).fst =
          ListingReturn.dataFrame (src.map normalize_row))
    ∧ (∀ response, be.listObjectsV2 s3_client SOURCE_BUCKET = Except.ok response →
        response.contents = none →
        (get_files_from_s3_folder be s3_client).fst = ListingReturn.emptyList)
    ∧ (∀ e, be.listObjectsV2 s3_client SOURCE_BUCKET = Except.error e →
        (get_files_from_s3_folder be s3_client).fst = ListingReturn.emptyList)
    ∧ (∀ rows : List NormRow,
        ListingReturn.dataFrame rows ≠ ListingReturn.emptyList) := by
  refine ⟨?_, ?_, ?_, ?_⟩
  · intro response src hL hc hne
    rw [get_files_df_eq be s3_client response src hL hc hne]
  · intro response hL hc
    rw [get_files_nocontents_eq be s3_client response hL hc]
  · intro e hL
    rw [get_files_err_eq be s3_client e hL]
  · intro rows hcontra
    exact ListingReturn.noConfusion hcontra

/-- C10 witness: a non-empty bucket yields a `DataFrame`, a failing
backend yields the empty list. -/
theorem claim_C10_witness :
    (get_files_from_s3_folder demoBackend (SessionCreds.default "us-east-1")).fst =
        ListingReturn.dataFrame ([demoObject].map normalize_row)
    ∧ (get_files_from_s3_folder failListBackend
        (SessionCreds.default "us-east-1")).fst = ListingReturn.emptyList :=
  ⟨(claim_C10_result_shape demoBackend (SessionCreds.default "us-east-1")).1
      { name := some "inversolarmx", contents := some [demoObject] } [demoObject]
      rfl rfl (by decide),
   (claim_C10_result_shape failListBackend (SessionCreds.default "us-east-1")).2.2.1
      (PyErr.aws "NoCredentialsError") rfl⟩

/-- C8 counterexample: two invocations at distinct instants (one is half a
second after the other, within the same process) produce the identical
session name, because `int(datetime.now().timestamp())` truncates the clock
to whole seconds. -/
theorem claim_C8_counterexample :
    ¬ (∀ t1 t2 : Nat, t1 ≠ t2 → sessionNameAt t1 ≠ sessionNameAt t2) := by
  intro h
  exact h 1000000 1500000 (by decide) (by decide)

/-- C8 (amended): session names are the fixed prefix plus the call-time
timestamp truncated to whole seconds, so two invocations get distinct
session names exactly when their call times fall in distinct whole seconds
— not per invocation. -/
theorem claim_C8_session_name_per_second (t1 t2 : Nat)
    (h : t1 / 1000000 ≠ t2 / 1000000) :
    sessionNameAt t1 ≠ sessionNameAt t2
    ∧ sessionNameAt t1 = "S3ExcelProcessor-" ++ Nat.repr (t1 / 1000000) := by
  refine ⟨?_, rfl⟩
  intro heq
  have heq2 : "S3ExcelProcessor-" ++ Nat.repr (t1 / 1000000) =
      "S3ExcelProcessor-" ++ Nat.repr (t2 / 1000000) := heq
  exact h (nat_repr_injective (string_append_left_cancel heq2))

/-- C8 witness: invocations in different whole seconds do get distinct
session names. -/
theorem claim_C8_witness :
    (1000000 : Nat) / 1000000 ≠ 2500000 / 1000000
    ∧ sessionNameAt 1000000 ≠ sessionNameAt 2500000 :=
  ⟨by decide, (claim_C8_session_name_per_second 1000000 2500000 (by decide)).1⟩

end SetupAws
